import Mathlib

/-!
Verification development for the m3u8-mcp / redmine-mcp application family.

The development shallowly embeds the parts of the program the checked
properties talk about:

* the Rust `RedmineClient` HTTP wrapper (`src/unnamed/part_005`) — timeouts
  and the `get/post/put/delete` result contract;
* the React `App` component credential / port logic (`src/src/App.tsx`,
  `src/unnamed/part_000`) — cache invalidation on credential change and the
  port-availability gate;
* the translation lookup `t` (`src/src/i18n.ts`);
* the CacheStore, tool dispatcher and Job state machine, whose code is not
  part of the available sources and which are therefore modelled from the
  specification text (each such definition is marked `Modelled from the
  spec:` in its doc comment).

Effectful code is embedded as pure functions over explicit inputs: the HTTP
exchange outcome, the React component state, and the backend probe result
are passed as arguments, and observable side effects (Tauri `invoke` calls,
backend handler invocations, progress events) are returned as traces.
-/

namespace Redmine

/-- Minimal JSON value tree, enough to state the client result contract
(`json!({})` and `json!({"success": true})` from the Rust source). -/
inductive Json where
  | bool (b : Bool)
  | num (n : Int)
  | str (s : String)
  | arr (elems : List Json)
  | obj (fields : List (String × Json))
  deriving Repr

/-- Errors produced by the `?` operator on a reqwest call: connect/read
timeout expiry, other transport failures, failure to read the body text,
failure to parse the body as JSON. -/
inductive TransportErr where
  | timeout
  | connection
  | bodyRead
  | jsonParse
  deriving Repr, DecidableEq

/-- Error type of a client call: either a `RedmineApiError { status, message,
errors }` built by the non-success branch, or a propagated reqwest error. -/
inductive RequestError where
  | api (status : Nat) (message : String) (errors : List String)
  | reqwest (e : TransportErr)
  deriving Repr, DecidableEq

/-- One upstream HTTP response: its status code, the outcome of reading the
body as text (`none` = read failure), and the outcome of parsing the body as
JSON (`none` = parse failure). -/
structure HttpResponse where
  status : Nat
  bodyText : Option String
  bodyJson : Option Json
  deriving Repr

/-- Outcome of `send().await`: either the request itself failed (timeout,
connection error, ...) or a response arrived. -/
inductive HttpOutcome where
  | sendError (e : TransportErr)
  | response (r : HttpResponse)
  deriving Repr

/-- The reqwest `StatusCode::is_success` predicate: 2xx. -/
def isSuccess (status : Nat) : Bool :=
  200 ≤ status && status < 300

/-- Timeout configuration of the underlying reqwest `Client`; `none` means
the corresponding timeout was never set. -/
structure HttpClient where
  readTimeoutSecs : Option Nat
  connectTimeoutSecs : Option Nat
  deriving Repr, DecidableEq

/-- The `RedmineConfig { host, api_key }` record. -/
structure RedmineConfig where
  host : String
  api_key : String
  deriving Repr, DecidableEq

/-- The `RedmineClient { client, config }` struct. -/
structure RedmineClient where
  client : HttpClient
  config : RedmineConfig
  deriving Repr, DecidableEq

/-- Embedding of `RedmineClient::new`: the builder is asked for a 10 s total
timeout and a 5 s connect timeout; `builderOk` is the outcome of
`Client::builder()...build()`, whose failure is handled by
`unwrap_or_else(|_| Client::new())`, a default client with no explicit
timeouts. -/
def RedmineClient.new (host api_key : String) (builderOk : Bool) : RedmineClient :=
  { client :=
      if builderOk then
        { readTimeoutSecs := some 10, connectTimeoutSecs := some 5 }
      else
        { readTimeoutSecs := none, connectTimeoutSecs := none }
    config := { host := host, api_key := api_key } }

/-- Embedding of `RedmineClient::get` applied to the outcome of its one HTTP
exchange: non-success statuses produce `RedmineApiError` carrying the status
and the body text; a success status parses the body as JSON. -/
def RedmineClient.get (o : HttpOutcome) : Except RequestError Json :=
  match o with
  | .sendError e => .error (.reqwest e)
  | .response r =>
    if !isSuccess r.status then
      match r.bodyText with
      | none => .error (.reqwest .bodyRead)
      | some text => .error (.api r.status "Request failed" [text])
    else
      match r.bodyJson with
      | none => .error (.reqwest .jsonParse)
      | some j => .ok j

/-- Embedding of `RedmineClient::post`: like `get`, except that a `204 No
Content` success status short-circuits to `Ok(json!({}))` before the body is
parsed. -/
def RedmineClient.post (o : HttpOutcome) : Except RequestError Json :=
  match o with
  | .sendError e => .error (.reqwest e)
  | .response r =>
    if !isSuccess r.status then
      match r.bodyText with
      | none => .error (.reqwest .bodyRead)
      | some text => .error (.api r.status "Request failed" [text])
    else if r.status = 204 then
      .ok (.obj [])
    else
      match r.bodyJson with
      | none => .error (.reqwest .jsonParse)
      | some j => .ok j

/-- Embedding of `RedmineClient::put`, identical in shape to `post`. -/
def RedmineClient.put (o : HttpOutcome) : Except RequestError Json :=
  match o with
  | .sendError e => .error (.reqwest e)
  | .response r =>
    if !isSuccess r.status then
      match r.bodyText with
      | none => .error (.reqwest .bodyRead)
      | some text => .error (.api r.status "Request failed" [text])
    else if r.status = 204 then
      .ok (.obj [])
    else
      match r.bodyJson with
      | none => .error (.reqwest .jsonParse)
      | some j => .ok j

/-- Embedding of `RedmineClient::delete`: errors as in `get`, but a success
never reads the body and returns the fixed `json!({"success": true})`. -/
def RedmineClient.delete (o : HttpOutcome) : Except RequestError Json :=
  match o with
  | .sendError e => .error (.reqwest e)
  | .response r =>
    if !isSuccess r.status then
      match r.bodyText with
      | none => .error (.reqwest .bodyRead)
      | some text => .error (.api r.status "Request failed" [text])
    else
      .ok (.obj [("success", .bool true)])

end Redmine

namespace App

/-- One Tauri `invoke` call issued by the React component, in the order the
code awaits them. -/
inductive Cmd where
  | clearCache
  | refreshCacheStats
  | configureRedmine (host api_key : String)
  | testConnection
  deriving Repr, DecidableEq

/-- The slice of the `App` component state that `testRedmineConnection` in
`src/src/App.tsx` reads: the current form fields, the previously stored
credentials, and whether `init_database` succeeded on mount. -/
structure ConfigState where
  redmineHost : String
  redmineApiKey : String
  previousRedmineHost : String
  previousRedmineApiKey : String
  databaseInitialized : Bool
  deriving Repr, DecidableEq

/-- The `configChanged` condition computed by `testRedmineConnection`:
a previous host was stored and either field differs from it. -/
def configChanged (s : ConfigState) : Bool :=
  s.previousRedmineHost ≠ "" &&
    (s.previousRedmineHost ≠ s.redmineHost || s.previousRedmineApiKey ≠ s.redmineApiKey)

/-- Embedding of `testRedmineConnection` (src/src/App.tsx lines 178-224) as
the ordered list of Tauri commands it awaits.  An empty host or API key
returns early with a message and no commands; otherwise, when the
configuration changed and the database is initialized, `clear_cache` (and a
stats refresh) run first, then `configure_redmine`, then
`test_redmine_connection`. -/
def testRedmineConnection (s : ConfigState) : List Cmd :=
  if s.redmineHost = "" || s.redmineApiKey = "" then
    []
  else
    (if configChanged s && s.databaseInitialized then
      [Cmd.clearCache, Cmd.refreshCacheStats]
    else
      []) ++ [Cmd.configureRedmine s.redmineHost s.redmineApiKey, Cmd.testConnection]

/-- The `portToCheck` argument of `checkPortAvailability`: the input handler
passes `null` for an empty field, and `parseInt` of a non-numeric string
yields `NaN`; otherwise a JavaScript number. -/
inductive PortInput where
  | null
  | nan
  | num (n : Int)
  deriving Repr, DecidableEq

/-- Result of one `checkPortAvailability` run: the final `portAvailable`
state (`none` when the probe threw), the final `mcpServerMessage`, and
whether the backend `check_port_availability` command was invoked. -/
structure PortCheckOutcome where
  portAvailable : Option Bool
  message : String
  probed : Bool
  deriving Repr, DecidableEq

/-- The `t.portError` message of the English translation table. -/
def portErrorMsg : String := "Please enter a valid port (1024-65535)"

/-- The `t.portNotAllowed` / `t.portRange` messages (English variant of
src/unnamed/part_000). -/
def portNotAllowedMsg : String := "Port 0 is not allowed"

/-- Message shown when the port is outside 1024-65535. -/
def portRangeMsg : String := "Port must be between 1024 and 65535"

/-- Embedding of `checkPortAvailability` (src/src/App.tsx lines 128-176 and
src/unnamed/part_000 lines 35-78), with the component state it reads
(`mcpServerRunning`, `currentPort`) and the backend probe outcome
(`probeResult`, `none` when the invoke throws) as explicit inputs. -/
def checkPortAvailability (mcpServerRunning : Bool) (currentPort : Option Int)
    (portToCheck : PortInput) (probeResult : Option Bool) : PortCheckOutcome :=
  match portToCheck with
  | .null => { portAvailable := some false, message := portErrorMsg, probed := false }
  | .nan => { portAvailable := some false, message := portErrorMsg, probed := false }
  | .num n =>
    if mcpServerRunning && currentPort = some n then
      { portAvailable := some true, message := "", probed := false }
    else if n = 0 then
      { portAvailable := some false, message := portNotAllowedMsg, probed := false }
    else if n < 1024 || n > 65535 then
      { portAvailable := some false, message := portRangeMsg, probed := false }
    else
      match probeResult with
      | some available => { portAvailable := some available, message := "", probed := true }
      | none => { portAvailable := none, message := "", probed := true }

/-- The `disabled` condition of the start/stop button in src/src/App.tsx:
when the server is stopped, starting is blocked while the port is marked
unavailable, a check is in flight, the field is empty, or Redmine is not
configured. -/
def startButtonDisabled (mcpServerRunning : Bool) (portAvailable : Option Bool)
    (checkingPort : Bool) (portInput : String) (redmineConfigured : Bool) : Bool :=
  !mcpServerRunning &&
    (portAvailable = some false || checkingPort || portInput = "" || !redmineConfigured)

end App

namespace CacheStore

/-- Modelled from the spec: a `CacheRecord` row — `{source_id, kind,
fetched_at, payload (elided), searchable_text}` plus the equality-filter
columns the spec names (project/status/assignee id).  The Rust CacheStore
implementation is not among the available sources; uniqueness key is
`(kind, source_id)`. -/
structure CacheRecord where
  kind : String
  source_id : Nat
  fetched_at : Nat
  searchable_text : String
  project_id : Option Nat := none
  status_id : Option Nat := none
  assignee_id : Option Nat := none
  deriving Repr, DecidableEq

/-- Uniqueness key of a cache row. -/
def keyOf (r : CacheRecord) : String × Nat :=
  (r.kind, r.source_id)

/-- Modelled from the spec: the cache table, a list of rows whose
`(kind, source_id)` keys behave as a keyed map under `upsert`. -/
abbrev Cache := List CacheRecord

/-- Modelled from the spec: upsert of one record with last-write-wins
semantics — any existing row with the same `(kind, source_id)` key is
replaced by the incoming record. -/
def upsert (c : Cache) (r : CacheRecord) : Cache :=
  c.filter (fun x => decide (keyOf x ≠ keyOf r)) ++ [r]

/-- Modelled from the spec: `upsert_many(records)`, upserting in order. -/
def upsertMany (c : Cache) : List CacheRecord → Cache
  | [] => c
  | r :: rest => upsertMany (upsert c r) rest

/-- Does some record of `rs` carry key `k`? -/
def hasKey (rs : List CacheRecord) (k : String × Nat) : Bool :=
  rs.any (fun r => decide (keyOf r = k))

/-- Keep, for each key, only the last record of the list carrying it. -/
def dedupLast : List CacheRecord → List CacheRecord
  | [] => []
  | r :: rest => if hasKey rest (keyOf r) then dedupLast rest else r :: dedupLast rest

/-- Modelled from the spec: `stats()` count for one kind. -/
def statsCount (c : Cache) (kind : String) : Nat :=
  (c.filter (fun r => decide (r.kind = kind))).length

/-- Modelled from the spec: `stats()` latest `fetched_at` for one kind. -/
def statsLatest (c : Cache) (kind : String) : Option Nat :=
  ((c.filter (fun r => decide (r.kind = kind))).map CacheRecord.fetched_at).max?

/-- Total row count of the cache. -/
def rowCount (c : Cache) : Nat :=
  c.length

/-- Modelled from the spec: `clear()` deletes all rows. -/
def clear (_ : Cache) : Cache :=
  []

/-- Modelled from the spec: one fetched page sequence of
`ingest_all(fetch_page)`: starting from offset 0, fetch fixed-size pages and
stop as soon as a page returns fewer than `limit` records.  `fuel` bounds
the recursion; the external source is a pure `fetch_page (offset, limit)`
function. -/
def collectPages (fetch_page : Nat → Nat → List CacheRecord) (limit : Nat) :
    Nat → Nat → List CacheRecord
  | 0, _ => []
  | fuel + 1, offset =>
    let page := fetch_page offset limit
    if page.length < limit then
      page
    else
      page ++ collectPages fetch_page limit fuel (offset + limit)

/-- Modelled from the spec: `ingest_all`, upserting each fetched page as it
arrives (page-by-page upserting equals one `upsert_many` of the
concatenation, see `upsertMany_append`). -/
def ingest_all (c : Cache) (fetch_page : Nat → Nat → List CacheRecord)
    (limit fuel : Nat) : Cache :=
  upsertMany c (collectPages fetch_page limit fuel 0)

/-- Modelled from the spec: the equality filter set of `search` — an
optional required value per filterable column. -/
structure Filters where
  project_id : Option Nat := none
  status_id : Option Nat := none
  assignee_id : Option Nat := none
  deriving Repr, DecidableEq

/-- Does `needle` occur as a contiguous substring of `hay`? -/
def containsSub (hay needle : List Char) : Bool :=
  (List.range (hay.length + 1)).any
    (fun i => decide ((hay.drop i).take needle.length = needle))

/-- One equality filter: absent (`none`) accepts every row. -/
def filterMatches (wanted : Option Nat) (actual : Option Nat) : Bool :=
  match wanted with
  | none => true
  | some v => decide (actual = some v)

/-- Modelled from the spec: the row predicate of `search` —
case-insensitive containment of the query in the searchable text plus the
equality filters. -/
def recordMatches (query : String) (f : Filters) (r : CacheRecord) : Bool :=
  containsSub (r.searchable_text.toLower.toList) (query.toLower.toList) &&
    filterMatches f.project_id r.project_id &&
    filterMatches f.status_id r.status_id &&
    filterMatches f.assignee_id r.assignee_id

/-- Modelled from the spec: `search(query, filters, limit, offset) → (rows,
total)`; `total` counts every matching row, `rows` is the `offset`/`limit`
page of the matching rows. -/
def search (c : Cache) (query : String) (f : Filters) (limit offset : Nat) :
    List CacheRecord × Nat :=
  let matching := c.filter (recordMatches query f)
  ((matching.drop offset).take limit, matching.length)

end CacheStore

namespace Dispatcher

/-- Modelled from the spec: the `ToolError` variants of the `tools/call`
validation pipeline.  The dispatcher implementation is not among the
available sources. -/
inductive ToolError where
  | unknownTool
  | toolDisabled
  | invalidArguments
  deriving Repr, DecidableEq

/-- Modelled from the spec: the outcome of a dispatched handler, wrapped as
MCP content; a backend failure becomes tool-level content with
`isError: true`, not a transport failure. -/
structure Content where
  isError : Bool
  body : String
  deriving Repr, DecidableEq

/-- Modelled from the spec: a handler bound to the backend; invoking it is
the only way the backend is reached, so the second component of
`toolsCall` counts its invocations (the call-count assertion on a stub
backend from the spec's testable properties). -/
def wrapHandler (handlerOutcome : Except String String) : Content :=
  match handlerOutcome with
  | .ok body => { isError := false, body := body }
  | .error msg => { isError := true, body := msg }

/-- Modelled from the spec: `tools/call {name, arguments}` validation and
dispatch — (1) reject names outside the catalog with `UnknownTool`,
(2) reject names outside the session's enabled set with `ToolDisabled`,
(3) reject invalid arguments with `InvalidArguments`, (4) dispatch to the
bound handler.  Returns the result together with the number of backend
handler invocations performed. -/
def toolsCall (catalog enabledTools : List String) (name : String)
    (argsValid : Bool) (handlerOutcome : Except String String) :
    Except ToolError Content × Nat :=
  if !catalog.any (fun t => decide (t = name)) then
    (.error .unknownTool, 0)
  else if !enabledTools.any (fun t => decide (t = name)) then
    (.error .toolDisabled, 0)
  else if !argsValid then
    (.error .invalidArguments, 0)
  else
    (.ok (wrapHandler handlerOutcome), 1)

end Dispatcher

namespace ProgressBus

/-- Modelled from the spec: the Job states
`Idle → Initializing → Running → {Completed | Cancelled | Failed}`. -/
inductive JobState where
  | idle
  | initializing
  | running
  | completed
  | cancelled
  | failed
  deriving Repr, DecidableEq

/-- Terminal Job states. -/
def isTerminal : JobState → Bool
  | .completed => true
  | .cancelled => true
  | .failed => true
  | _ => false

/-- Modelled from the spec: stimuli of the Job state machine — the job
starts, the first progress sample arrives, a further progress sample
arrives, the cancel flag is observed at a checkpoint, the backend reports a
fatal error, or the backend run loop finishes. -/
inductive JobEvent where
  | start
  | firstProgress
  | progressSample
  | cancelObserved
  | fatalError
  | finished
  deriving Repr, DecidableEq

/-- Modelled from the spec: one transition of the Job state machine,
returning the next state and the progress events emitted (broadcast) by the
transition.  Terminal states are sticky and emit nothing; any non-terminal
state moves to `Failed` on a fatal error with no emission afterwards. -/
def step (s : JobState) (e : JobEvent) : JobState × List String :=
  if isTerminal s then
    (s, [])
  else
    match s, e with
    | .idle, .start => (.initializing, ["init"])
    | .initializing, .firstProgress => (.running, ["progress"])
    | .running, .progressSample => (.running, ["progress"])
    | .running, .cancelObserved => (.cancelled, ["cancelled"])
    | .running, .finished => (.completed, ["completed"])
    | _, .fatalError => (.failed, ["error"])
    | s, _ => (s, [])

/-- Run the Job state machine over a list of events, accumulating every
emitted progress event in order. -/
def run (s : JobState) : List JobEvent → JobState × List String
  | [] => (s, [])
  | e :: rest =>
    let (s1, out1) := step s e
    let (s2, out2) := run s1 rest
    (s2, out1 ++ out2)

end ProgressBus

namespace I18n

/-- A node of the `translations` object of `src/src/i18n.ts`: either a leaf
string or a nested object with ordered string keys. -/
inductive Trans where
  | str (s : String)
  | obj (fields : List (String × Trans))

/-- Lookup of an own property in an object node. -/
def lookupField : List (String × Trans) → String → Option Trans
  | [], _ => none
  | (k, v) :: rest, key => if k = key then some v else lookupField rest key

/-- The resolution loop of `t`: walk the key list; stepping requires the
current value to be an object holding the key (`value && typeof value ===
'object' && key in value`), otherwise resolution fails. -/
def resolve : Trans → List String → Option Trans
  | v, [] => some v
  | .str _, _ :: _ => none
  | .obj fields, k :: ks =>
    match lookupField fields k with
    | some v => resolve v ks
    | none => none

mutual

/-- Do two translation trees have the same shape: strings at the same
leaves and objects with identical key sequences? -/
def sameShape : Trans → Trans → Bool
  | .str _, .str _ => true
  | .obj a, .obj b => sameShapeFields a b
  | _, _ => false

/-- Field-list part of `sameShape`. -/
def sameShapeFields : List (String × Trans) → List (String × Trans) → Bool
  | [], [] => true
  | (k1, v1) :: r1, (k2, v2) :: r2 =>
    decide (k1 = k2) && sameShape v1 v2 && sameShapeFields r1 r2
  | _, _ => false

end

/-- Classification of a resolution outcome: failed, string leaf, object. -/
def shapeKind : Option Trans → Nat
  | none => 0
  | some (.str _) => 1
  | some (.obj _) => 2

/-- The `Language` union type: `keyof typeof translations`. -/
inductive Language where
  | en
  | ja
  deriving Repr, DecidableEq

/-- The `en` branch of the `translations` table of `src/src/i18n.ts`. -/
def enTable : Trans := .obj [
  ("title", .str "m3u8 MCP Server"),
  ("menu", .obj [
    ("settings", .str "Settings"),
    ("ffmpegConfig", .str "FFmpeg Configuration"),
    ("mcpServerControl", .str "MCP Server Control"),
    ("cacheStats", .str "Cache Statistics")]),
  ("m3u8Form", .obj [
    ("title", .str "m3u8 Stream Parser"),
    ("urlLabel", .str "m3u8 URL"),
    ("urlPlaceholder", .str "https://example.com/stream.m3u8"),
    ("parseButton", .str "Parse Playlist"),
    ("downloadButton", .str "Download Stream"),
    ("parsing", .str "Parsing..."),
    ("processing", .str "Processing..."),
    ("clearUrl", .str "Clear URL"),
    ("urlHistory", .str "URL History"),
    ("recentUrls", .str "Recent URLs"),
    ("clearAll", .str "Clear All"),
    ("noUrlError", .str "Please enter a valid m3u8 URL"),
    ("parsedPlaylist", .str "Parsed Playlist"),
    ("version", .str "Version"),
    ("targetDuration", .str "Target Duration"),
    ("variants", .str "Variants"),
    ("bandwidth", .str "Bandwidth"),
    ("resolution", .str "Resolution"),
    ("codecs", .str "Codecs"),
    ("segments", .str "Segments"),
    ("duration", .str "Duration"),
    ("segmentsTotal", .str "total"),
    ("andMore", .str "and \x7bcount\x7d more segments"),
    ("master", .str "Master"),
    ("media", .str "Media"),
    ("downloadCompleted", .str "Download completed"),
    ("downloadCancelled", .str "Download cancelled"),
    ("initializingDownload", .str "Initializing download..."),
    ("cancellingDownload", .str "Cancelling download..."),
    ("extractSegmentsButton", .str "Extract Segments"),
    ("extracting", .str "Extracting..."),
    ("extractedSegments", .str "Extracted Segments"),
    ("copyUrl", .str "Copy URL"),
    ("copyAllUrls", .str "Copy All URLs"),
    ("clearSegments", .str "Clear"),
    ("showLess", .str "Show Less"),
    ("disclaimer", .str "Content Download Disclaimer"),
    ("disclaimerText", .str "By using this download feature, you acknowledge that:\n• You are responsible for ensuring you have proper rights and permissions to download the content\n• You will comply with all applicable copyright laws and terms of service\n• This tool is provided for legitimate use cases only (personal backups, content you own, etc.)\n• The developers are not responsible for any misuse of this tool"),
    ("iUnderstand", .str "I understand and agree"),
    ("cancel", .str "Cancel"),
    ("selectDownloadFolder", .str "Select Download Folder")]),
  ("mcpServer", .obj [
    ("title", .str "MCP Server Control"),
    ("ffmpegConfig", .str "FFmpeg Configuration"),
    ("ffmpegPath", .str "FFmpeg Path"),
    ("connectWith", .str "Connect with:"),
    ("claudeCode", .str "Claude Code"),
    ("claudeDesktop", .str "Claude Desktop"),
    ("vsCode", .str "VS Code Extension"),
    ("port", .str "Port:"),
    ("portError", .str "Please enter a valid port (1024-65535)"),
    ("startServer", .str "Connect to AI via MCP"),
    ("stopServer", .str "Disconnect from AI"),
    ("status", .str "Status:"),
    ("running", .str "Running on port"),
    ("stopped", .str "Stopped"),
    ("copy", .str "Copy"),
    ("copied", .str "Copied!"),
    ("error", .str "Error:"),
    ("saveConfig", .str "Configuration saved")]),
  ("cache", .obj [
    ("title", .str "Cache Statistics"),
    ("cachedPlaylists", .str "Cached Playlists"),
    ("downloadedStreams", .str "Downloaded Streams"),
    ("probeResults", .str "Probe Results"),
    ("totalDownloadSize", .str "Total Download Size"),
    ("latestDownload", .str "Latest download"),
    ("latestCache", .str "Latest cache"),
    ("refresh", .str "Refresh"),
    ("close", .str "Close"),
    ("databaseNotInitialized", .str "Database not initialized"),
    ("clearSuccess", .str "Cache cleared successfully"),
    ("clearError", .str "Failed to clear cache")])]

/-- The `ja` branch of the `translations` table of `src/src/i18n.ts`. -/
def jaTable : Trans := .obj [
  ("title", .str "m3u8 MCP サーバー"),
  ("menu", .obj [
    ("settings", .str "設定"),
    ("ffmpegConfig", .str "FFmpeg 設定"),
    ("mcpServerControl", .str "MCP サーバー制御"),
    ("cacheStats", .str "キャッシュ統計")]),
  ("m3u8Form", .obj [
    ("title", .str "m3u8 ストリームパーサー"),
    ("urlLabel", .str "m3u8 URL"),
    ("urlPlaceholder", .str "https://example.com/stream.m3u8"),
    ("parseButton", .str "プレイリストを解析"),
    ("downloadButton", .str "ストリームをダウンロード"),
    ("parsing", .str "解析中..."),
    ("processing", .str "処理中..."),
    ("clearUrl", .str "URLをクリア"),
    ("urlHistory", .str "URL履歴"),
    ("recentUrls", .str "最近のURL"),
    ("clearAll", .str "すべてクリア"),
    ("noUrlError", .str "有効なm3u8 URLを入力してください"),
    ("parsedPlaylist", .str "解析済みプレイリスト"),
    ("version", .str "バージョン"),
    ("targetDuration", .str "ターゲット時間"),
    ("variants", .str "バリアント"),
    ("bandwidth", .str "帯域幅"),
    ("resolution", .str "解像度"),
    ("codecs", .str "コーデック"),
    ("segments", .str "セグメント"),
    ("duration", .str "時間"),
    ("segmentsTotal", .str "合計"),
    ("andMore", .str "他 \x7bcount\x7d セグメント"),
    ("master", .str "マスター"),
    ("media", .str "メディア"),
    ("downloadCompleted", .str "ダウンロード完了"),
    ("downloadCancelled", .str "ダウンロードをキャンセルしました"),
    ("initializingDownload", .str "ダウンロードを初期化しています..."),
    ("cancellingDownload", .str "ダウンロードをキャンセル中..."),
    ("extractSegmentsButton", .str "セグメント抽出"),
    ("extracting", .str "抽出中..."),
    ("extractedSegments", .str "抽出されたセグメント"),
    ("copyUrl", .str "URLをコピー"),
    ("copyAllUrls", .str "すべてのURLをコピー"),
    ("clearSegments", .str "クリア"),
    ("showLess", .str "折りたたむ"),
    ("disclaimer", .str "コンテンツダウンロードに関する免責事項"),
    ("disclaimerText", .str "このダウンロード機能を使用することで、以下に同意したものとみなされます：\n• コンテンツをダウンロードする適切な権限と許可を持っていることを確認する責任があります\n• すべての適用される著作権法およびサービス利用規約を遵守します\n• このツールは正当な用途（個人的なバックアップ、所有するコンテンツなど）にのみ使用されます\n• 開発者はこのツールの誤用について一切の責任を負いません"),
    ("iUnderstand", .str "理解し、同意します"),
    ("cancel", .str "キャンセル"),
    ("selectDownloadFolder", .str "ダウンロード先フォルダを選択")]),
  ("mcpServer", .obj [
    ("title", .str "MCP サーバー制御"),
    ("ffmpegConfig", .str "FFmpeg 設定"),
    ("ffmpegPath", .str "FFmpeg パス"),
    ("connectWith", .str "接続方法:"),
    ("claudeCode", .str "Claude Code"),
    ("claudeDesktop", .str "Claude Desktop"),
    ("vsCode", .str "VS Code 拡張機能"),
    ("port", .str "ポート:"),
    ("portError", .str "有効なポート番号を入力してください (1024-65535)"),
    ("startServer", .str "MCPでAIに接続"),
    ("stopServer", .str "AIから切断"),
    ("status", .str "ステータス:"),
    ("running", .str "ポートで実行中"),
    ("stopped", .str "停止中"),
    ("copy", .str "コピー"),
    ("copied", .str "コピーしました!"),
    ("error", .str "エラー:"),
    ("saveConfig", .str "設定を保存しました")]),
  ("cache", .obj [
    ("title", .str "キャッシュ統計"),
    ("cachedPlaylists", .str "キャッシュ済みプレイリスト"),
    ("downloadedStreams", .str "ダウンロード済みストリーム"),
    ("probeResults", .str "プローブ結果"),
    ("totalDownloadSize", .str "合計ダウンロードサイズ"),
    ("latestDownload", .str "最新のダウンロード"),
    ("latestCache", .str "最新のキャッシュ"),
    ("refresh", .str "更新"),
    ("close", .str "閉じる"),
    ("databaseNotInitialized", .str "データベースが初期化されていません"),
    ("clearSuccess", .str "キャッシュを正常にクリアしました"),
    ("clearError", .str "キャッシュのクリアに失敗しました")])]

/-- The `translations` table indexed by language. -/
def translations : Language → Trans
  | .en => enTable
  | .ja => jaTable

/-- Splitting a character list on a separator, modelling the JavaScript
`path.split('.')` used by `t`: the empty string yields `[""]`, and every
separator occurrence starts a new group. -/
def splitChars (sep : Char) : List Char → List (List Char)
  | [] => [[]]
  | c :: rest =>
    if c = sep then
      [] :: splitChars sep rest
    else
      match splitChars sep rest with
      | [] => [[c]]
      | g :: gs => (c :: g) :: gs

/-- The key list of a dot-separated path: `path.split('.')`. -/
def splitPath (path : String) : List String :=
  (splitChars '.' path.toList).map (fun cs => String.mk cs)

/-- Embedding of the helper function `t` (src/src/i18n.ts lines 198-220):
split the path on dots and walk the requested language's table; if the walk
fails midway, rewalk from the English table, returning the path on failure;
a walk that ends on a non-string value also returns the path. -/
def t (language : Language) (path : String) : String :=
  let keys := splitPath path
  match resolve (translations language) keys with
  | some (.str s) => s
  | some (.obj _) => path
  | none =>
    match resolve enTable keys with
    | some (.str s) => s
    | some (.obj _) => path
    | none => path

/-- Resolution of a path to a string leaf, written from the claim's words:
the value the claim calls "the translation in language L" when the path
"resolves to a string there". -/
def resolvesToString (tree : Trans) (path : String) : Option String :=
  match resolve tree (splitPath path) with
  | some (.str s) => some s
  | _ => none

/-- The lookup behaviour exactly as the claim words it: the requested
language's translation when the path resolves to a string there, otherwise
the English translation when the path resolves to a string in English,
otherwise the path itself. -/
def tSpec (language : Language) (path : String) : String :=
  match resolvesToString (translations language) path with
  | some s => s
  | none =>
    match resolvesToString enTable path with
    | some s => s
    | none => path

end I18n

namespace Redmine

/-- C2 counterexample: when `Client::builder().build()` fails, the
`unwrap_or_else(|_| Client::new())` fallback yields a client with no
explicit read or connect timeout, so not every client carries explicit
timeouts as the claim states. -/
theorem new_fallback_has_no_timeouts :
    (RedmineClient.new "https://hostB" "keyB" false).client.readTimeoutSecs = none ∧
    (RedmineClient.new "https://hostB" "keyB" false).client.connectTimeoutSecs = none :=
  ⟨rfl, rfl⟩

/-- C2 (amended): whenever the client builder succeeds, the client built by
`RedmineClient::new` carries an explicit 10 s total/read timeout and an
explicit 5 s connect timeout; timeout expiry of any of the four methods
surfaces as an `Err` value (a backend-level error at the tool-call level),
not as a panic or session termination. -/
theorem new_sets_timeouts_and_timeout_is_nonfatal :
    ∀ (host api_key : String),
      (RedmineClient.new host api_key true).client.readTimeoutSecs = some 10 ∧
      (RedmineClient.new host api_key true).client.connectTimeoutSecs = some 5 ∧
      RedmineClient.get (.sendError .timeout) = .error (.reqwest .timeout) ∧
      RedmineClient.post (.sendError .timeout) = .error (.reqwest .timeout) ∧
      RedmineClient.put (.sendError .timeout) = .error (.reqwest .timeout) ∧
      RedmineClient.delete (.sendError .timeout) = .error (.reqwest .timeout) :=
  fun _ _ => ⟨rfl, rfl, rfl, rfl, rfl, rfl⟩

/-- C3 counterexample: a response with success status 200 whose body fails
to parse as JSON makes `get` return `Err`, so `Ok` is not equivalent to a
success status as the claim states. -/
theorem get_success_status_can_fail :
    isSuccess 200 = true ∧
    RedmineClient.get
        (.response { status := 200, bodyText := some "not json", bodyJson := none }) =
      .error (.reqwest .jsonParse) :=
  ⟨rfl, rfl⟩

end Redmine

namespace Redmine

/-- C3 (amended): for a response, `get`/`post`/`put` return `Ok` exactly
when the status is a success and the body parses as JSON (with `204`
short-circuiting to `Ok({})` for `post`/`put`), `delete` returns the fixed
`{"success": true}` exactly when the status is a success, and every
non-success status with a readable body yields a `RedmineApiError` carrying
the numeric status and the body text. -/
theorem result_contract (r : HttpResponse) :
    ((RedmineClient.get (.response r)).isOk = true ↔
      isSuccess r.status = true ∧ r.bodyJson.isSome = true) ∧
    ((RedmineClient.post (.response r)).isOk = true ↔
      isSuccess r.status = true ∧ (r.status = 204 ∨ r.bodyJson.isSome = true)) ∧
    ((RedmineClient.put (.response r)).isOk = true ↔
      isSuccess r.status = true ∧ (r.status = 204 ∨ r.bodyJson.isSome = true)) ∧
    ((RedmineClient.delete (.response r)).isOk = true ↔ isSuccess r.status = true) ∧
    (isSuccess r.status = true →
      RedmineClient.delete (.response r) = .ok (.obj [("success", .bool true)])) ∧
    (∀ text, isSuccess r.status = false → r.bodyText = some text →
      RedmineClient.get (.response r) = .error (.api r.status "Request failed" [text]) ∧
      RedmineClient.post (.response r) = .error (.api r.status "Request failed" [text]) ∧
      RedmineClient.put (.response r) = .error (.api r.status "Request failed" [text]) ∧
      RedmineClient.delete (.response r) = .error (.api r.status "Request failed" [text])) := by
  obtain ⟨st, btext, bjson⟩ := r
  cases hs : isSuccess st <;>
    cases btext <;> cases bjson <;>
      simp_all [RedmineClient.get, RedmineClient.post, RedmineClient.put,
        RedmineClient.delete, Except.isOk, Except.toBool] <;>
      by_cases h204 : st = 204 <;> simp_all

/-- C3 witness: the contract applied to a concrete 404 response with body
text "missing". -/
theorem result_contract_witness :
    isSuccess 404 = false ∧
    RedmineClient.get
        (.response { status := 404, bodyText := some "missing", bodyJson := none }) =
      .error (.api 404 "Request failed" ["missing"]) :=
  ⟨rfl,
    ((result_contract { status := 404, bodyText := some "missing", bodyJson := none }).2.2.2.2.2
      "missing" rfl rfl).1⟩

end Redmine

namespace App

/-- C1 counterexample: with stored previous credentials `(hostA, keyA)`,
different new credentials `(hostB, keyB)`, but `init_database` having
failed (`databaseInitialized = false`), the connection test runs the
connectivity check without ever calling `clear_cache`. -/
theorem testConnection_skips_clear_when_db_uninitialized :
    testRedmineConnection
        { redmineHost := "hostB", redmineApiKey := "keyB",
          previousRedmineHost := "hostA", previousRedmineApiKey := "keyA",
          databaseInitialized := false } =
      [Cmd.configureRedmine "hostB" "keyB", Cmd.testConnection] ∧
    Cmd.clearCache ∉
      testRedmineConnection
        { redmineHost := "hostB", redmineApiKey := "keyB",
          previousRedmineHost := "hostA", previousRedmineApiKey := "keyA",
          databaseInitialized := false } := by
  constructor
  · rfl
  · decide

/-- C1 (amended): provided the cache database has been initialized, a change
of stored credentials from a non-empty previous configuration to a
different non-empty configuration makes the connection test call
`clear_cache` before the `test_redmine_connection` connectivity check; when
the credentials are unchanged or no non-empty previous configuration is
stored, `clear_cache` is never called.  The hypothesis `hstored` is the
component invariant that the two previous-credential fields are stored
together (both are set only by `loadRedmineConfiguration` on a complete
config and by a successful `testRedmineConnection`). -/
theorem testConnection_clear_policy (s : ConfigState)
    (hstored : s.previousRedmineHost = "" ↔ s.previousRedmineApiKey = "") :
    (s.previousRedmineHost ≠ "" → s.previousRedmineApiKey ≠ "" →
      (s.previousRedmineHost ≠ s.redmineHost ∨ s.previousRedmineApiKey ≠ s.redmineApiKey) →
      s.redmineHost ≠ "" → s.redmineApiKey ≠ "" → s.databaseInitialized = true →
      testRedmineConnection s =
        [Cmd.clearCache, Cmd.refreshCacheStats,
         Cmd.configureRedmine s.redmineHost s.redmineApiKey, Cmd.testConnection]) ∧
    ((s.previousRedmineHost = s.redmineHost ∧ s.previousRedmineApiKey = s.redmineApiKey) ∨
        s.previousRedmineHost = "" ∨ s.previousRedmineApiKey = "" →
      Cmd.clearCache ∉ testRedmineConnection s) := by
  constructor
  · intro hph hpk hdiff hh hk hdb
    simp only [testRedmineConnection, configChanged, hdb]
    rw [if_neg (by simp [hh, hk])]
    rcases hdiff with hd | hd <;> simp [hph, hd]
  · intro hcase
    simp only [testRedmineConnection, configChanged]
    by_cases hempty : s.redmineHost = "" ∨ s.redmineApiKey = ""
    · rw [if_pos (by simpa using hempty)]
      simp
    · rw [if_neg (by simpa using hempty)]
      rcases hcase with ⟨h1, h2⟩ | h | h
      · simp [h1, h2]
      · simp [h]
      · simp [hstored.mpr h]

/-- C1 witness: the amended policy applied to the concrete switch from
`(hostA, keyA)` to `(hostB, keyB)` with the database initialized. -/
theorem testConnection_clear_policy_witness :
    testRedmineConnection
        { redmineHost := "hostB", redmineApiKey := "keyB",
          previousRedmineHost := "hostA", previousRedmineApiKey := "keyA",
          databaseInitialized := true } =
      [Cmd.clearCache, Cmd.refreshCacheStats,
       Cmd.configureRedmine "hostB" "keyB", Cmd.testConnection] :=
  (testConnection_clear_policy _ (by simp)).1 (by simp) (by simp)
    (Or.inl (by simp)) (by simp) (by simp) rfl

end App

namespace App

/-- C9 counterexample: with the server running on current port 500, checking
port 500 — a port outside the 1024-65535 range — marks it available rather
than unavailable (the running-server branch precedes the range checks), so
the claim does not hold for every out-of-range input. -/
theorem checkPort_running_branch_beats_range :
    (500 : Int) < 1024 ∧
    checkPortAvailability true (some 500) (.num 500) none =
      { portAvailable := some true, message := "", probed := false } :=
  ⟨by norm_num, rfl⟩

/-- C9 (amended): a `null` or `NaN` input is always marked unavailable
without probing; an input equal to 0 or outside 1024-65535 is marked
unavailable without probing provided the server is not currently running on
that same port; the backend probe runs only for in-range numeric ports; and
while the server is stopped, a port marked unavailable keeps the start
control disabled. -/
theorem checkPort_validation (running : Bool) (cur : Option Int)
    (p : PortInput) (probe : Option Bool) :
    (p = .null ∨ p = .nan →
      checkPortAvailability running cur p probe =
        { portAvailable := some false, message := portErrorMsg, probed := false }) ∧
    (∀ n, p = .num n → ¬(running = true ∧ cur = some n) →
      n = 0 ∨ n < 1024 ∨ n > 65535 →
      (checkPortAvailability running cur p probe).portAvailable = some false ∧
      (checkPortAvailability running cur p probe).probed = false) ∧
    ((checkPortAvailability running cur p probe).probed = true →
      ∃ n, p = .num n ∧ 1024 ≤ n ∧ n ≤ 65535) ∧
    (∀ checking input configured,
      startButtonDisabled false (some false) checking input configured = true) := by
  refine ⟨?_, ?_, ?_, ?_⟩
  · rintro (rfl | rfl) <;> rfl
  · rintro n rfl hnotcur hbad
    rcases hbad with h0 | hlo | hhi
    · subst h0
      simp [checkPortAvailability, hnotcur]
    · have hz : n = 0 ∨ ¬(n = 0) := by tauto
      rcases hz with hz | hz
      · subst hz
        simp [checkPortAvailability, hnotcur]
      · simp [checkPortAvailability, hnotcur, hz, hlo]
    · have hz : ¬(n = 0) := by omega
      simp [checkPortAvailability, hnotcur, hz, hhi]
  · intro hpr
    rcases p with _ | _ | n
    · simp [checkPortAvailability] at hpr
    · simp [checkPortAvailability] at hpr
    · by_cases hcur : running = true ∧ cur = some n
      · simp [checkPortAvailability, hcur] at hpr
      · by_cases hz : n = 0
        · subst hz
          simp [checkPortAvailability, hcur] at hpr
        · by_cases hr : n < 1024 ∨ n > 65535
          · rcases hr with h | h <;> simp [checkPortAvailability, hcur, hz, h] at hpr
          · push_neg at hr
            exact ⟨n, rfl, by omega, by omega⟩
  · intro checking input configured
    simp [startButtonDisabled]

/-- C9 witness: the validation applied to the concrete out-of-range port
70000 with the server stopped, and to a `NaN` input. -/
theorem checkPort_validation_witness :
    ((checkPortAvailability false none (.num 70000) none).portAvailable = some false ∧
      (checkPortAvailability false none (.num 70000) none).probed = false) ∧
    checkPortAvailability false (some 37650) .nan (some true) =
      { portAvailable := some false, message := portErrorMsg, probed := false } :=
  ⟨(checkPort_validation false none (.num 70000) none).2.1 70000 rfl (by simp) (by omega),
   (checkPort_validation false (some 37650) .nan (some true)).1 (Or.inr rfl)⟩

end App

namespace CacheStore

/-- C5: `search` returns at most `limit` rows, and `total` is the full
count of rows matching the query and filters, independent of the chosen
limit and offset. -/
theorem search_rows_le_limit_total_full :
    ∀ (c : Cache) (query : String) (f : Filters) (limit offset : Nat),
      (search c query f limit offset).1.length ≤ limit ∧
      (search c query f limit offset).2 = (c.filter (recordMatches query f)).length ∧
      ∀ limit2 offset2,
        (search c query f limit offset).2 = (search c query f limit2 offset2).2 := by
  intro c query f limit offset
  refine ⟨?_, rfl, fun _ _ => rfl⟩
  simp [search, List.length_take_le]

/-- C8: `clear()` deletes every row — `stats()` reports a zero count and no
latest fetch time for every kind afterwards — and is idempotent: a second
`clear()` on the already-empty cache succeeds and leaves it empty. -/
theorem clear_deletes_all_and_idempotent :
    ∀ (c : Cache) (kind : String),
      statsCount (clear c) kind = 0 ∧
      statsLatest (clear c) kind = none ∧
      rowCount (clear c) = 0 ∧
      clear (clear c) = clear c :=
  fun _ _ => ⟨rfl, rfl, rfl, rfl⟩

end CacheStore

namespace Dispatcher

/-- C6: a `tools/call` whose tool name is in the catalog but not in the
session's enabled set returns `ToolError("ToolDisabled")` and performs zero
backend handler invocations, whatever the arguments or the handler would
have produced. -/
theorem toolsCall_disabled_never_reaches_backend
    (catalog enabledTools : List String) (name : String)
    (argsValid : Bool) (handlerOutcome : Except String String)
    (hcat : name ∈ catalog) (hdis : name ∉ enabledTools) :
    toolsCall catalog enabledTools name argsValid handlerOutcome =
      (.error .toolDisabled, 0) := by
  have h1 : catalog.any (fun tool => decide (tool = name)) = true :=
    List.any_eq_true.mpr ⟨name, hcat, by simp⟩
  have h2 : enabledTools.any (fun tool => decide (tool = name)) = false := by
    rw [List.any_eq_false]
    intro tool htool
    simp only [decide_eq_true_eq]
    rintro rfl
    exact hdis htool
  simp [toolsCall, h1, h2]

/-- C6 witness: the disabled-tool gate on a concrete two-tool catalog with
only the other tool enabled and a handler that would have succeeded. -/
theorem toolsCall_disabled_witness :
    "redmine_get_issue" ∈ ["redmine_list_issues", "redmine_get_issue"] ∧
    "redmine_get_issue" ∉ ["redmine_list_issues"] ∧
    toolsCall ["redmine_list_issues", "redmine_get_issue"] ["redmine_list_issues"]
        "redmine_get_issue" true (.ok "issue body") =
      (.error .toolDisabled, 0) :=
  ⟨by decide, by decide,
    toolsCall_disabled_never_reaches_backend _ _ _ _ _ (by decide) (by decide)⟩

end Dispatcher

namespace ProgressBus

/-- Helper: a terminal state absorbs any single event with no emission. -/
theorem step_terminal {s : JobState} (h : isTerminal s = true) (e : JobEvent) :
    step s e = (s, []) := by
  simp [step, h]

/-- C7: terminal Job states are sticky — from `Completed`, `Cancelled` or
`Failed`, any sequence of further events leaves the state unchanged and
emits no events; in particular, cancelling a `Running` job yields
`Cancelled`, after which no progress event is ever emitted. -/
theorem terminal_states_sticky (s : JobState) (h : isTerminal s = true) :
    (∀ events : List JobEvent, run s events = (s, [])) ∧
    (step .running .cancelObserved).1 = .cancelled ∧
    ∀ events : List JobEvent, run .cancelled events = (.cancelled, []) := by
  have hrun : ∀ (s2 : JobState), isTerminal s2 = true →
      ∀ events : List JobEvent, run s2 events = (s2, []) := by
    intro s2 h2 events
    induction events with
    | nil => rfl
    | cons e rest ih => simp [run, step_terminal h2, ih]
  exact ⟨hrun s h, rfl, hrun .cancelled rfl⟩

/-- C7 witness: stickiness applied to the `Cancelled` state and a concrete
later event sequence containing progress samples. -/
theorem terminal_states_sticky_witness :
    isTerminal .cancelled = true ∧
    run .cancelled [.progressSample, .firstProgress, .finished] = (.cancelled, []) :=
  ⟨rfl, (terminal_states_sticky .cancelled rfl).1 _⟩

end ProgressBus

namespace CacheStore

/-- Helper: page-by-page upserting is one `upsert_many` of the
concatenation. -/
theorem upsertMany_append (c : Cache) (a b : List CacheRecord) :
    upsertMany c (a ++ b) = upsertMany (upsertMany c a) b := by
  induction a generalizing c with
  | nil => rfl
  | cons r t ih =>
    simp only [List.cons_append, upsertMany]
    exact ih _

/-- Helper: every record kept by `dedupLast` comes from the input list. -/
theorem mem_dedupLast {x : CacheRecord} :
    ∀ {rs : List CacheRecord}, x ∈ dedupLast rs → x ∈ rs := by
  intro rs
  induction rs with
  | nil => simp [dedupLast]
  | cons r t ih =>
    simp only [dedupLast]
    split
    · intro h
      exact List.mem_cons_of_mem _ (ih h)
    · intro h
      rcases List.mem_cons.mp h with h | h
      · exact h ▸ List.mem_cons_self _ _
      · exact List.mem_cons_of_mem _ (ih h)

/-- Helper: normal form of `upsert_many` — the old rows whose key does not
occur in the batch, followed by the last write per key of the batch. -/
theorem upsertMany_eq (rs : List CacheRecord) :
    ∀ c : Cache,
      upsertMany c rs =
        c.filter (fun x => !hasKey rs (keyOf x)) ++ dedupLast rs := by
  induction rs with
  | nil =>
    intro c
    simp [upsertMany, dedupLast, hasKey]
  | cons r t ih =>
    intro c
    show upsertMany (upsert c r) t = _
    rw [ih]
    unfold upsert
    have h1 : List.filter (fun x => !hasKey t (keyOf x))
          (List.filter (fun x => decide (keyOf x ≠ keyOf r)) c) =
        List.filter (fun x => !hasKey (r :: t) (keyOf x)) c := by
      rw [List.filter_filter]
      apply List.filter_congr
      intro x _
      by_cases hk : keyOf x = keyOf r
      · simp [hasKey, hk]
      · have hk2 : ¬(keyOf r = keyOf x) := fun he => hk he.symm
        simp [hasKey, hk, hk2]
    rw [List.filter_append, h1, List.append_assoc]
    cases hkr : hasKey t (keyOf r)
    · simp [dedupLast, hkr]
    · simp [dedupLast, hkr]

/-- Helper: re-upserting the same batch leaves the cache table unchanged. -/
theorem upsertMany_idem (c : Cache) (rs : List CacheRecord) :
    upsertMany (upsertMany c rs) rs = upsertMany c rs := by
  rw [upsertMany_eq rs c, upsertMany_eq rs]
  rw [List.filter_append]
  have hidem : List.filter (fun x => !hasKey rs (keyOf x))
        (List.filter (fun x => !hasKey rs (keyOf x)) c) =
      List.filter (fun x => !hasKey rs (keyOf x)) c := by
    rw [List.filter_filter]
    apply List.filter_congr
    intro x _
    simp [Bool.and_self]
  have hnil : List.filter (fun x => !hasKey rs (keyOf x)) (dedupLast rs) = [] := by
    rw [List.filter_eq_nil_iff]
    intro x hx
    have hmem : x ∈ rs := mem_dedupLast hx
    have hk : hasKey rs (keyOf x) = true := List.any_eq_true.mpr ⟨x, hmem, by simp⟩
    simp [hasKey] at hk ⊢
    exact hk
  rw [hidem, hnil, List.append_nil]

/-- Helper: `ingest_all` against an unchanged source is idempotent on the
whole cache table, because both runs fetch the identical page sequence. -/
theorem ingest_all_idem (c : Cache) (fetch_page : Nat → Nat → List CacheRecord)
    (limit fuel : Nat) :
    ingest_all (ingest_all c fetch_page limit fuel) fetch_page limit fuel =
      ingest_all c fetch_page limit fuel :=
  upsertMany_idem c (collectPages fetch_page limit fuel 0)

/-- C4: `upsert_many` is idempotent — re-upserting the same records leaves
the cache table, and hence its row count, unchanged — and running
`ingest_all` twice against an unchanged upstream source leaves every
`stats()` figure (per-kind counts and latest fetch times) unchanged. -/
theorem upsert_ingest_idempotent :
    ∀ (c : Cache) (records : List CacheRecord),
      upsertMany (upsertMany c records) records = upsertMany c records ∧
      rowCount (upsertMany (upsertMany c records) records) =
        rowCount (upsertMany c records) ∧
      ∀ (fetch_page : Nat → Nat → List CacheRecord) (limit fuel : Nat) (kind : String),
        statsCount (ingest_all (ingest_all c fetch_page limit fuel) fetch_page limit fuel)
            kind =
          statsCount (ingest_all c fetch_page limit fuel) kind ∧
        statsLatest (ingest_all (ingest_all c fetch_page limit fuel) fetch_page limit fuel)
            kind =
          statsLatest (ingest_all c fetch_page limit fuel) kind := by
  intro c records
  refine ⟨upsertMany_idem c records, congrArg rowCount (upsertMany_idem c records), ?_⟩
  intro fetch_page limit fuel kind
  rw [ingest_all_idem]
  exact ⟨rfl, rfl⟩

end CacheStore

namespace I18n

/-- Helper: same-shaped field lists look up to nothing or to same-shaped
values, for every key. -/
theorem lookupField_shape :
    ∀ (f1 f2 : List (String × Trans)), sameShapeFields f1 f2 = true → ∀ k,
      (lookupField f1 k = none ∧ lookupField f2 k = none) ∨
      (∃ v1 v2, lookupField f1 k = some v1 ∧ lookupField f2 k = some v2 ∧
        sameShape v1 v2 = true) := by
  intro f1
  induction f1 with
  | nil =>
    intro f2 h k
    cases f2 with
    | nil => exact Or.inl ⟨rfl, rfl⟩
    | cons q r2 => simp [sameShapeFields] at h
  | cons p r ih =>
    intro f2 h k
    obtain ⟨k1, v1⟩ := p
    cases f2 with
    | nil => simp [sameShapeFields] at h
    | cons q r2 =>
      obtain ⟨k2, v2⟩ := q
      simp only [sameShapeFields, Bool.and_eq_true, decide_eq_true_eq] at h
      obtain ⟨⟨hkeq, hvs⟩, hrest⟩ := h
      subst hkeq
      by_cases hk : k1 = k
      · exact Or.inr ⟨v1, v2, by simp [lookupField, hk], by simp [lookupField, hk], hvs⟩
      · simpa [lookupField, hk] using ih r2 hrest k

/-- Helper: same-shaped trees resolve every key list to the same kind of
outcome (failure, string leaf, or object). -/
theorem resolve_shapeKind :
    ∀ (ks : List String) (t1 t2 : Trans), sameShape t1 t2 = true →
      shapeKind (resolve t1 ks) = shapeKind (resolve t2 ks) := by
  intro ks
  induction ks with
  | nil =>
    intro t1 t2 h
    cases t1 <;> cases t2
    · rfl
    · simp [sameShape] at h
    · simp [sameShape] at h
    · rfl
  | cons k kt ih =>
    intro t1 t2 h
    cases t1 with
    | str s1 =>
      cases t2 with
      | str s2 => rfl
      | obj f2 => simp [sameShape] at h
    | obj f1 =>
      cases t2 with
      | str s2 => simp [sameShape] at h
      | obj f2 =>
        have hf : sameShapeFields f1 f2 = true := by simpa [sameShape] using h
        rcases lookupField_shape f1 f2 hf k with ⟨h1, h2⟩ | ⟨v1, v2, h1, h2, hv⟩
        · simp [resolve, h1, h2]
        · simpa [resolve, h1, h2] using ih v1 v2 hv

/-- Helper: the English and Japanese translation tables have the same
shape: the same nested key structure with string leaves at the same
places. -/
theorem jaTable_sameShape_enTable : sameShape jaTable enTable = true := by
  decide

/-- C10: the translation lookup is total — it always returns a string — and
behaves exactly as claimed: the requested language's translation when the
path resolves to a string there, otherwise the English translation when the
path resolves to a string in English, otherwise the path itself
(`tSpec`, written from the claim's wording). -/
theorem t_matches_spec :
    ∀ (language : Language) (path : String), t language path = tSpec language path := by
  intro language path
  cases language with
  | en =>
    simp only [t, tSpec, resolvesToString, translations]
    cases h : resolve enTable (splitPath path) with
    | none => simp [h]
    | some v => cases v <;> simp [h]
  | ja =>
    simp only [t, tSpec, resolvesToString, translations]
    cases h : resolve jaTable (splitPath path) with
    | none =>
      cases h2 : resolve enTable (splitPath path) with
      | none => simp [h, h2]
      | some v => cases v <;> simp [h, h2]
    | some v =>
      cases v with
      | str s => simp [h]
      | obj f =>
        have hk := resolve_shapeKind (splitPath path) jaTable enTable jaTable_sameShape_enTable
        rw [h] at hk
        have hobj : ∃ f2, resolve enTable (splitPath path) = some (.obj f2) := by
          rcases h2 : resolve enTable (splitPath path) with _ | v2
          · rw [h2] at hk
            simp [shapeKind] at hk
          · cases v2 with
            | str s2 =>
              rw [h2] at hk
              simp [shapeKind] at hk
            | obj f2 => exact ⟨f2, rfl⟩
        obtain ⟨f2, h2⟩ := hobj
        simp [h, h2]

end I18n
